import Mathlib

/-!
Shallow embedding of the ingestion core of the arab-sdg-scraper repository
(src/python/scraper_db.py, wordcloud_db.py, keyword_stats_db.py), together
with proofs about the embedded operations.

Conventions of the embedding:
- a Twitter API JSON payload is modelled by ApiResponse: the optional `data`
  key (a batch of record identifiers), the optional `meta.next_token` key,
  and the optional `status` key (429 on a rate limit);
- network nondeterminism is modelled by a script: the list of responses that
  successive calls of next_data return; a transport exception inside
  next_data makes it return the empty dict, modelled by emptyResponse, and a
  script that runs out behaves like further empty dicts;
- pandas DataFrames of records are modelled by lists of record identifiers;
- sleeps are not performed but counted (cooldowns counts the 900 second
  rate-limit waits).
-/

namespace ArabSdg

/-- One JSON payload returned by the Twitter API, as inspected by
query_data and query_counts in scraper_db.py: the `data` key carries a batch
of records, `next_token` stands for the `next_token` field of the `meta`
object, and `status` carries the HTTP-style status embedded in rate-limit
payloads. -/
structure ApiResponse where
  data : Option (List Nat)
  next_token : Option String
  status : Option Nat
deriving DecidableEq

/-- The empty dict returned by next_data and next_counts when the underlying
request raises a transport exception (scraper_db.py lines 258 to 263). -/
def emptyResponse : ApiResponse := ⟨none, none, none⟩

/-- A records page carrying a batch and an optional continuation token. -/
def okPage (batch : List Nat) (tok : Option String) : ApiResponse :=
  ⟨some batch, tok, none⟩

/-- A rate-limit payload: no data, no meta, status 429. -/
def rateLimited : ApiResponse := ⟨none, none, some 429⟩

/-- Result of next_data at call number i of a run scripted by script:
the next scripted response, or the empty dict once the script is
exhausted. -/
def nextData (script : List ApiResponse) (i : Nat) : ApiResponse :=
  script.getD i emptyResponse

/-- Outcome of one query_data invocation: the accumulated records, the
number of 900 second rate-limit sleeps performed, and the number of
next_data calls issued. -/
structure QueryOutcome where
  data : List Nat
  cooldowns : Nat
  requests : Nat
deriving DecidableEq

/-- The pagination while-loop of query_data (scraper_db.py lines 197 to
208): while the current results payload carries meta.next_token, issue
another next_data call, and when the new payload has a data key concatenate
its batch onto the accumulator. cur is the payload the loop condition
inspects, rest the remaining script, req the number of requests issued so
far. -/
def pageLoop (acc : List Nat) (req : Nat) (cur : ApiResponse) :
    List ApiResponse → List Nat × Nat
  | [] =>
    match cur.next_token with
    | none => (acc, req)
    | some _ => (acc, req + 1)
  | r :: rs =>
    match cur.next_token with
    | none => (acc, req)
    | some _ => pageLoop (acc ++ r.data.getD []) (req + 1) r rs

/-- query_data of scraper_db.py (lines 166 to 209), over a scripted network.
The first next_data call either yields a data batch (which seeds the
accumulator), or a status 429 payload, in which case the code sleeps 900
seconds and re-issues the request once; note that the source does not read
the data batch of that retry, it only re-enters the pagination loop with the
retry payload, so the accumulator stays empty, exactly as in the source.
Any other first payload leaves the accumulator empty and proceeds to the
loop. -/
def queryData (script : List ApiResponse) : QueryOutcome :=
  let r0 := nextData script 0
  if r0.data.isSome then
    let p := pageLoop (r0.data.getD []) 1 r0 (script.drop 1)
    ⟨p.1, 0, p.2⟩
  else if r0.status = some 429 then
    let r1 := nextData script 1
    let p := pageLoop [] 2 r1 (script.drop 2)
    ⟨p.1, 1, p.2⟩
  else
    let p := pageLoop [] 1 r0 (script.drop 1)
    ⟨p.1, 0, p.2⟩

/-- query_counts of scraper_db.py (lines 212 to 230): a single next_counts
call; the result is the data batch when the payload has one, else the empty
frame. -/
def queryCounts (script : List ApiResponse) : List Nat :=
  (nextData script 0).data.getD []

/-- Interpolation of a Python value into an f-string: None prints as the
four letter word None. -/
def pyStr : Option String → String
  | none => "None"
  | some s => s

/-- to_query of scraper_db.py (lines 46 to 67). The null marker is the
literal string nan or the Python value None. -/
def to_query (country_query : Option String) (lang : String)
    (input_query : Option String) : String :=
  if input_query = some "nan" ∨ input_query = none then
    pyStr country_query ++ " lang:" ++ lang ++ " -is:retweet"
  else if country_query = some "nan" ∨ country_query = none then
    pyStr input_query ++ " lang:" ++ lang ++ " -is:retweet"
  else
    "(" ++ pyStr input_query ++ ") (" ++ pyStr country_query ++ ") lang:" ++
      lang ++ " -is:retweet"

/-- Observable steps of one scrape invocation (scraper_db.py lines 70 to
133): the records fetch, the conditional RawTweets write, the counts fetch,
and the conditional TweetCount write, in program order. -/
inductive ScrapeEvent where
  | fetchData : ScrapeEvent
  | writeRawTweets : Nat → ScrapeEvent
  | fetchCounts : ScrapeEvent
  | writeTweetCount : Nat → ScrapeEvent
deriving DecidableEq

/-- scrape of scraper_db.py (lines 70 to 133), as the ordered list of its
observable effects: scrape_data always runs; the RawTweets write happens
only when the records frame is non-empty; scrape_counts then always runs,
unconditionally; the TweetCount write happens only when the counts frame is
non-empty. dataScript and countsScript script the two network
conversations. -/
def scrape (dataScript countsScript : List ApiResponse) : List ScrapeEvent :=
  let data_df := (queryData dataScript).data
  let counts_df := queryCounts countsScript
  [ScrapeEvent.fetchData] ++
    (if data_df.length > 0 then [ScrapeEvent.writeRawTweets data_df.length]
     else []) ++
    [ScrapeEvent.fetchCounts] ++
    (if counts_df.length > 0 then
      [ScrapeEvent.writeTweetCount counts_df.length]
     else [])

/-- One row of the CountryTopic table read by runner (scraper_db.py lines
313 to 320): the partition key and the stored watermark SinceId. -/
structure CountryTopicRow where
  CountryCode : String
  TopicId : String
  Lang : String
  SinceId : Option Nat
deriving DecidableEq

/-- Result of one scrape call inside runner, as an oracle value: either the
collection succeeded (carrying the highest record identifier it observed,
the candidate watermark, which the Python scrape never returns and runner
never reads), or it raised an exception with the given message. -/
inductive ScrapeOutcome where
  | ok : Option Nat → ScrapeOutcome
  | exc : String → ScrapeOutcome
deriving DecidableEq

/-- Partition key of a CountryTopic row. -/
def partitionKey (r : CountryTopicRow) : String × String × String :=
  (r.CountryCode, r.TopicId, r.Lang)

/-- The log line runner writes when scrape raises (scraper_db.py line
341). -/
def errorMessage (r : CountryTopicRow) (msg : String) : String :=
  "Error scraping " ++ r.CountryCode ++ "-" ++ r.TopicId ++ "-" ++ r.Lang ++
    ": " ++ msg

/-- Observable result of one runner run: the partitions on which scrape was
invoked, in order; the error log; and the CountryTopic table (keys with
stored SinceId watermarks) after the run. -/
structure RunOutcome where
  attempted : List (String × String × String)
  errorLog : List String
  sinceIds : List (String × String × String × Option Nat)
deriving DecidableEq

/-- Body of the runner for-loop for one CountryTopic row (scraper_db.py
lines 316 to 342): scrape is invoked inside try; on an exception the error
is logged and the loop continues. No branch writes the SinceId column: the
watermark update is an unimplemented TODO at line 337 of the source, so the
sinceIds component of the state is left untouched. -/
def runnerStep (outcome : CountryTopicRow → ScrapeOutcome) (st : RunOutcome)
    (row : CountryTopicRow) : RunOutcome :=
  match outcome row with
  | ScrapeOutcome.ok _ =>
    { st with attempted := st.attempted ++ [partitionKey row] }
  | ScrapeOutcome.exc e =>
    { st with attempted := st.attempted ++ [partitionKey row],
              errorLog := st.errorLog ++ [errorMessage row e] }

/-- runner of scraper_db.py (lines 295 to 344), for runs in which the
Country and Topic configuration lookups succeed (those happen outside the
try block and do not touch watermarks or the log): iterate the CountryTopic
rows in order, invoking scrape on each, where the oracle outcome gives the
result of each scrape call. The final CountryTopic table starts as the
input table and, as in the source, is never written. -/
def runner (table : List CountryTopicRow)
    (outcome : CountryTopicRow → ScrapeOutcome) : RunOutcome :=
  table.foldl (runnerStep outcome)
    ⟨[], [], table.map (fun r => (r.CountryCode, r.TopicId, r.Lang, r.SinceId))⟩

/-- Log entry produced by a row, when its scrape raises. -/
def logEntry (outcome : CountryTopicRow → ScrapeOutcome)
    (r : CountryTopicRow) : Option String :=
  match outcome r with
  | ScrapeOutcome.ok _ => none
  | ScrapeOutcome.exc e => some (errorMessage r e)

/-- Distinct elements of a list in first occurrence order, with an
accumulator of elements already seen. -/
def pyDedupAux (seen : List String) : List String → List String
  | [] => []
  | t :: ts =>
    if t ∈ seen then pyDedupAux seen ts
    else t :: pyDedupAux (t :: seen) ts

/-- Distinct elements of a list in first occurrence order: the key order of
a Python dict or Counter built from the list. -/
def pyDedup (l : List String) : List String :=
  pyDedupAux [] l

/-- Items view of the Counter built from tokens: each distinct token in
first occurrence order, paired with its multiplicity. -/
def pyCounts (tokens : List String) : List (String × Nat) :=
  (pyDedup tokens).map (fun t => (t, tokens.count t))

/-- Ordering used by Counter.most_common: count descending. A stable sort
under this relation keeps equal-count items in Counter insertion order,
matching the stability of the Python sort. -/
abbrev countGe (a b : String × Nat) : Prop := b.2 ≤ a.2

instance : DecidableRel countGe := fun a b =>
  inferInstanceAs (Decidable (b.2 ≤ a.2))

instance : IsTotal (String × Nat) countGe :=
  ⟨fun a b => Nat.le_total b.2 a.2⟩

instance : IsTrans (String × Nat) countGe :=
  ⟨fun _ _ _ h1 h2 => Nat.le_trans h2 h1⟩

/-- Counter.most_common of the token list with an argument n: the items
stably sorted by count descending, truncated to the first n. -/
def mostCommon (n : Nat) (tokens : List String) : List (String × Nat) :=
  (List.insertionSort countGe (pyCounts tokens)).take n

/-- Result frame of get_wordcloud: the column labels and the rows, each row
a word with its count. -/
structure Wordcloud where
  columns : List String
  rows : List (String × Nat)
deriving DecidableEq

/-- The single string fed to text_cleanup by get_wordcloud: the text cells
that are strings, joined by single spaces (non string cells are skipped by
the isinstance guard). -/
def joinedText (texts : List (Option String)) : String :=
  String.intercalate " " (texts.filterMap id)

/-- Token list get_wordcloud derives from the input frame: the joined text
passed through the tokenizer. -/
def tokensOf (cleanup : String → String → String → List String)
    (texts : List (Option String)) (country lang : String) : List String :=
  cleanup (joinedText texts) country lang

/-- get_wordcloud of wordcloud_db.py (lines 115 to 155). The text cells of
the input frame are modelled by texts (none stands for a non string cell);
the tokenizer text_cleanup is passed as a parameter, because its stopword
tables come from the NLTK corpus distribution, data not contained in the
repository; every property proved below holds for every tokenizer. An
empty input frame short-circuits to an empty frame with columns word and
count. Otherwise the tokens are counted, most_common truncates to top_n,
and the dict-to-frame conversion yields one row per distinct word; when
most_common is empty the reset_index and rename steps of the source
produce only the word column. -/
def get_wordcloud (cleanup : String → String → String → List String)
    (texts : List (Option String)) (country lang : String)
    (top_n : Nat := 30) : Wordcloud :=
  if texts.length = 0 then ⟨["word", "count"], []⟩
  else
    let mc := mostCommon top_n (tokensOf cleanup texts country lang)
    ⟨if mc.isEmpty then ["word"] else ["word", "count"], mc⟩

/-- Check that the list p occurs at the start of the second list. -/
def isPrefixL : List Char → List Char → Bool
  | [], _ => true
  | _ :: _, [] => false
  | a :: p, b :: s => a = b && isPrefixL p s

/-- Check that the list p occurs as a contiguous run inside the second
list, matching the Python substring operator. -/
def containsL (p : List Char) : List Char → Bool
  | [] => isPrefixL p []
  | b :: s => isPrefixL p (b :: s) || containsL p s

/-- Character-wise lowercasing of a character list. -/
def lowerChars (l : List Char) : List Char :=
  l.map Char.toLower

/-- Case-insensitive literal substring test, the semantics of the pandas
str.contains call with case False, regex False used by get_stats
(keyword_stats_db.py lines 110 to 112). -/
def containsLiteral (text pat : String) : Bool :=
  containsL (lowerChars pat.toList) (lowerChars text.toList)

/-- The Python split of a character list on a single separator character:
non-collapsing, so consecutive separators yield empty parts, and the empty
input yields one empty part. -/
def pySplitAux (c : Char) : List Char → List (List Char)
  | [] => [[]]
  | a :: rest =>
    match pySplitAux c rest with
    | [] => [[]]
    | w :: ws => if a = c then [] :: w :: ws else (a :: w) :: ws

/-- The Python split of a string on the single space character, as in the
source expression splitting a keyword into its parts. -/
def pySplitSpace (s : String) : List String :=
  (pySplitAux ' ' s.toList).map (fun w => String.mk w)

/-- The Python join of a list of strings with the ampersand character
between consecutive parts. -/
def joinAmp : List String → String
  | [] => ""
  | [w] => w
  | w :: x :: ws => w ++ "&" ++ joinAmp (x :: ws)

/-- The search pattern get_stats builds for a keyword (keyword_stats_db.py
lines 105 to 106): the space-separated parts of the keyword joined by the
ampersand character. -/
def keywordPattern (keyword : String) : String :=
  joinAmp (pySplitSpace keyword)

/-- One row of the ProcessedTweets frame read by get_stats. -/
structure ProcessedTweet where
  text : String
  sentiment : String
  topic : String
deriving DecidableEq

/-- The matched_tweets selection of get_stats (keyword_stats_db.py lines
110 to 112): the tweets whose text contains the keyword pattern as a
case-insensitive literal substring. -/
def matchedTweets (tweets : List ProcessedTweet) (keyword : String) :
    List ProcessedTweet :=
  tweets.filter (fun t => containsLiteral t.text (keywordPattern keyword))

/-- keyword_count of get_stats (keyword_stats_db.py line 114). -/
def keywordCount (tweets : List ProcessedTweet) (keyword : String) : Nat :=
  (matchedTweets tweets keyword).length

/-! Helper lemmas about the pagination loop. -/

theorem pageLoop_no_token (acc : List Nat) (req : Nat) (cur : ApiResponse)
    (rest : List ApiResponse) (h : cur.next_token = none) :
    pageLoop acc req cur rest = (acc, req) := by
  cases rest <;> simp [pageLoop, h]

theorem pageLoop_token_cons (acc : List Nat) (req : Nat) (cur : ApiResponse)
    (t : String) (r : ApiResponse) (rs : List ApiResponse)
    (h : cur.next_token = some t) :
    pageLoop acc req cur (r :: rs) =
      pageLoop (acc ++ r.data.getD []) (req + 1) r rs := by
  simp [pageLoop, h]

theorem queryData_cons_some (batch : List Nat) (tok : Option String)
    (st : Option Nat) (rest : List ApiResponse) :
    queryData (ApiResponse.mk (some batch) tok st :: rest) =
      ⟨(pageLoop batch 1 ⟨some batch, tok, st⟩ rest).1, 0,
       (pageLoop batch 1 ⟨some batch, tok, st⟩ rest).2⟩ := rfl

theorem queryData_cons_rateLimited (rest : List ApiResponse) :
    queryData (rateLimited :: rest) =
      ⟨(pageLoop [] 2 (rest.getD 0 emptyResponse) (rest.drop 1)).1, 1,
       (pageLoop [] 2 (rest.getD 0 emptyResponse) (rest.drop 1)).2⟩ := rfl

theorem queryData_cons_no_data (tok : Option String)
    (rest : List ApiResponse) :
    queryData (ApiResponse.mk none tok none :: rest) =
      ⟨(pageLoop [] 1 ⟨none, tok, none⟩ rest).1, 0,
       (pageLoop [] 1 ⟨none, tok, none⟩ rest).2⟩ := rfl

/-! Helper lemmas about the runner loop. -/

theorem runner_foldl (outcome : CountryTopicRow → ScrapeOutcome)
    (rows : List CountryTopicRow) (init : RunOutcome) :
    rows.foldl (runnerStep outcome) init =
      ⟨init.attempted ++ rows.map partitionKey,
       init.errorLog ++ rows.filterMap (logEntry outcome),
       init.sinceIds⟩ := by
  induction rows generalizing init with
  | nil => simp
  | cons r rs ih =>
    simp only [List.foldl_cons, ih, List.map_cons, List.filterMap_cons]
    cases h : outcome r <;>
      simp [runnerStep, logEntry, h, List.append_assoc]

/-! Helper lemmas about pyDedup and mostCommon. -/

theorem mem_pyDedupAux {x : String} :
    ∀ {l seen : List String}, x ∈ pyDedupAux seen l → x ∈ l
  | [], _, h => by simp [pyDedupAux] at h
  | t :: ts, seen, h => by
    rw [pyDedupAux] at h
    by_cases hts : t ∈ seen
    · rw [if_pos hts] at h
      exact List.mem_cons_of_mem _ (mem_pyDedupAux h)
    · rw [if_neg hts] at h
      rcases List.mem_cons.mp h with h1 | h1
      · exact h1 ▸ List.mem_cons_self _ _
      · exact List.mem_cons_of_mem _ (mem_pyDedupAux h1)

theorem pyDedupAux_nodup :
    ∀ (l seen : List String),
      (∀ y ∈ pyDedupAux seen l, y ∉ seen) ∧ (pyDedupAux seen l).Nodup
  | [], seen => by simp [pyDedupAux]
  | t :: ts, seen => by
    rw [pyDedupAux]
    by_cases hts : t ∈ seen
    · rw [if_pos hts]
      exact pyDedupAux_nodup ts seen
    · rw [if_neg hts]
      obtain ⟨hnotin, hnodup⟩ := pyDedupAux_nodup ts (t :: seen)
      refine ⟨?_, ?_⟩
      · intro y hy
        rcases List.mem_cons.mp hy with h1 | h1
        · exact h1 ▸ hts
        · exact fun hseen =>
            hnotin y h1 (List.mem_cons_of_mem _ hseen)
      · refine List.nodup_cons.mpr ⟨fun hmem => ?_, hnodup⟩
        exact hnotin t hmem (List.mem_cons_self _ _)

theorem mem_pyDedup {x : String} {l : List String} (h : x ∈ pyDedup l) :
    x ∈ l :=
  mem_pyDedupAux h

theorem pyDedup_nodup (l : List String) : (pyDedup l).Nodup :=
  (pyDedupAux_nodup l []).2

theorem mostCommon_mem {n : Nat} {tokens : List String} {pr : String × Nat}
    (h : pr ∈ mostCommon n tokens) :
    pr.1 ∈ tokens ∧ pr.2 = tokens.count pr.1 := by
  have h1 : pr ∈ List.insertionSort countGe (pyCounts tokens) :=
    List.mem_of_mem_take h
  have h2 : pr ∈ pyCounts tokens :=
    (List.perm_insertionSort countGe (pyCounts tokens)).mem_iff.mp h1
  rcases List.mem_map.mp h2 with ⟨t, ht, hpr⟩
  subst hpr
  exact ⟨mem_pyDedup ht, rfl⟩

theorem mostCommon_nodup_words (n : Nat) (tokens : List String) :
    ((mostCommon n tokens).map Prod.fst).Nodup := by
  have hmap : (pyCounts tokens).map Prod.fst = pyDedup tokens := by
    rw [pyCounts, List.map_map]
    exact List.map_id _
  have hperm : List.Perm
      ((List.insertionSort countGe (pyCounts tokens)).map Prod.fst)
      ((pyCounts tokens).map Prod.fst) :=
    (List.perm_insertionSort countGe (pyCounts tokens)).map Prod.fst
  have hnodup : ((List.insertionSort countGe (pyCounts tokens)).map
      Prod.fst).Nodup :=
    hperm.nodup_iff.mpr (hmap ▸ pyDedup_nodup tokens)
  exact hnodup.sublist ((List.take_sublist n _).map Prod.fst)

theorem mostCommon_sorted (n : Nat) (tokens : List String) :
    (mostCommon n tokens).Pairwise (fun a b => b.2 ≤ a.2) := by
  have hs : (List.insertionSort countGe (pyCounts tokens)).Pairwise countGe :=
    List.sorted_insertionSort countGe (pyCounts tokens)
  exact hs.sublist (List.take_sublist n _)

theorem mostCommon_length (n : Nat) (tokens : List String) :
    (mostCommon n tokens).length ≤ n := by
  simp [mostCommon]

/-! Claim theorems. -/

/-- C1: the claim says runner persists the candidate watermark of a
successful partition as its new stored SinceId. The code does not: the
update is an unimplemented TODO (scraper_db.py line 337), although the
runner docstring (line 304) announces the update. Evaluating the run at the
failing input: one partition LB-SDG01-en with stored watermark 5 whose
collection succeeds observing highest identifier 10; the run reports no
error, yet the stored watermark is still 5, not 10. -/
theorem runner_never_persists_watermark :
    (runner [⟨"LB", "SDG01", "en", some 5⟩]
        (fun _ => ScrapeOutcome.ok (some 10))).errorLog = [] ∧
    (runner [⟨"LB", "SDG01", "en", some 5⟩]
        (fun _ => ScrapeOutcome.ok (some 10))).sinceIds =
      [("LB", "SDG01", "en", some 5)] :=
  ⟨rfl, rfl⟩

/-- C2 counterexample: the claim says every rate-limited records page
request is followed by one 15 minute cooldown and one re-issue of the same
request. In query_data only the first request is handled that way: when the
second page request of this script is rate-limited, the invocation performs
no cooldown at all and issues no retry (two requests total), ending with
the records accumulated before the signal. -/
theorem pagination_rate_limit_gets_no_cooldown :
    (queryData [okPage [1] (some "T1"), rateLimited]).cooldowns = 0 ∧
    (queryData [okPage [1] (some "T1"), rateLimited]).requests = 2 ∧
    (queryData [okPage [1] (some "T1"), rateLimited]).data = [1] :=
  ⟨rfl, rfl, rfl⟩

/-- C2 amended: a rate-limit signal on the initial page request triggers
exactly one fixed cooldown and one re-issue of the same request; if that
retry is rate-limited again in direct succession, the invocation ends after
exactly one cooldown with no further automatic retry and an empty
accumulator. A rate-limit signal on a later page request ends the
invocation immediately, with no cooldown and no retry, keeping the records
accumulated so far. -/
theorem initial_rate_limit_one_cooldown_one_retry
    (s s2 : List ApiResponse) (p : List Nat) (t : String) :
    queryData (rateLimited :: rateLimited :: s) = ⟨[], 1, 2⟩ ∧
    queryData (okPage p (some t) :: rateLimited :: s2) = ⟨p, 0, 2⟩ := by
  constructor
  · rw [queryData_cons_rateLimited]
    simp only [List.getD_cons_zero, List.drop_succ_cons, List.drop_zero]
    rw [pageLoop_no_token _ _ _ _ rfl]
  · simp only [okPage]
    rw [queryData_cons_some, pageLoop_token_cons _ _ _ t _ _ rfl,
      pageLoop_no_token _ _ _ _ rfl]
    simp [rateLimited]

/-- C3 counterexample: the claim says the Failed outcome carries an error
marker so that a caller can tell a partial result from a complete one. The
outcome of a run whose second page request hits a transport error (the
empty dict) is definitionally equal to the outcome of a run whose second
page is a clean terminal page: same records, same cooldown count, same
request count, so no caller can distinguish the two. -/
theorem transport_error_outcome_equals_clean_done :
    queryData [okPage [1, 2] (some "T"), emptyResponse] =
      queryData [okPage [1, 2] (some "T"), okPage [] none] ∧
    queryData [okPage [1, 2] (some "T"), emptyResponse] = ⟨[1, 2], 0, 2⟩ :=
  ⟨rfl, rfl⟩

/-- C3 amended: on a transport error the pager stops immediately with no
retry and yields the records accumulated so far, but with no error marker:
the outcome is identical to that of a run ending on a clean empty terminal
page, so callers cannot distinguish the partial result from a complete
one. -/
theorem transport_error_stops_immediately_no_marker
    (p : List Nat) (t : String) (s s2 : List ApiResponse) :
    queryData (okPage p (some t) :: emptyResponse :: s) = ⟨p, 0, 2⟩ ∧
    queryData (okPage p (some t) :: emptyResponse :: s) =
      queryData (okPage p (some t) :: okPage [] none :: s2) := by
  have h1 : queryData (okPage p (some t) :: emptyResponse :: s) =
      ⟨p, 0, 2⟩ := by
    simp only [okPage]
    rw [queryData_cons_some, pageLoop_token_cons _ _ _ t _ _ rfl,
      pageLoop_no_token _ _ _ _ rfl]
    simp [emptyResponse]
  have h2 : queryData (okPage p (some t) :: okPage [] none :: s2) =
      ⟨p, 0, 2⟩ := by
    simp only [okPage]
    rw [queryData_cons_some, pageLoop_token_cons _ _ _ t _ _ rfl,
      pageLoop_no_token _ _ _ _ rfl]
    simp
  exact ⟨h1, h1.trans h2.symm⟩

/-- C4: for every scripted response sequence of a first page with a
continuation token followed by a terminal page, query_data accumulates the
two batches in fetch order, with no cooldown, both pages consumed by
exactly two requests, and ends cleanly: the Done outcome of the spec state
machine. -/
theorem two_page_script_accumulates_in_order
    (p1 p2 : List Nat) (t1 : String) :
    queryData [okPage p1 (some t1), okPage p2 none] = ⟨p1 ++ p2, 0, 2⟩ := by
  simp only [okPage]
  rw [queryData_cons_some, pageLoop_token_cons _ _ _ t1 _ _ rfl,
    pageLoop_no_token _ _ _ _ rfl]
  simp

/-- C5: for every CountryTopic table and every behaviour of the per
partition collections, runner invokes the collection of every partition
exactly once, in table order, and logs each collection failure with the
partition key in the standard message; a failing partition never aborts the
run, since the attempted list always covers the whole table. -/
theorem runner_attempts_all_and_logs_failures
    (table : List CountryTopicRow)
    (outcome : CountryTopicRow → ScrapeOutcome) :
    (runner table outcome).attempted = table.map partitionKey ∧
    (runner table outcome).errorLog = table.filterMap (logEntry outcome) := by
  rw [runner, runner_foldl]
  exact ⟨by simp, by simp⟩

/-- C6: the full case analysis of to_query. When the topic filter is the
null marker (the string nan or None), the result is the country filter
followed by the language restriction and the retweet exclusion; when the
topic filter is present but the country filter is the null marker, the
topic filter followed by the same suffix; when both are present, the topic
filter and then the country filter, each wrapped in parentheses, followed
by the suffix; and the concrete example of the spec evaluates as
claimed. -/
theorem to_query_cases (cq : Option String) (lg : String)
    (iq : Option String) :
    ((iq = some "nan" ∨ iq = none) →
      to_query cq lg iq = pyStr cq ++ " lang:" ++ lg ++ " -is:retweet") ∧
    (¬(iq = some "nan" ∨ iq = none) → (cq = some "nan" ∨ cq = none) →
      to_query cq lg iq = pyStr iq ++ " lang:" ++ lg ++ " -is:retweet") ∧
    (¬(iq = some "nan" ∨ iq = none) → ¬(cq = some "nan" ∨ cq = none) →
      to_query cq lg iq = "(" ++ pyStr iq ++ ") (" ++ pyStr cq ++
        ") lang:" ++ lg ++ " -is:retweet") ∧
    to_query (some "Lebanon") "en" (some "poverty OR inequality") =
      "(poverty OR inequality) (Lebanon) lang:en -is:retweet" := by
  refine ⟨fun h => ?_, fun h1 h2 => ?_, fun h1 h2 => ?_, by decide⟩
  · rw [to_query, if_pos h]
  · rw [to_query, if_neg h1, if_pos h2]
  · rw [to_query, if_neg h1, if_neg h2]

/-- C6 witness: the three hypotheses of to_query_cases discharged at
concrete inputs, one per case. -/
theorem to_query_cases_witness :
    to_query (some "Lebanon") "en" (some "nan") =
      "Lebanon lang:en -is:retweet" ∧
    to_query (some "nan") "ar" (some "hunger") =
      "hunger lang:ar -is:retweet" ∧
    to_query (some "Lebanon") "en" (some "poverty OR inequality") =
      "(poverty OR inequality) (Lebanon) lang:en -is:retweet" :=
  ⟨(to_query_cases (some "Lebanon") "en" (some "nan")).1 (Or.inl rfl),
   (to_query_cases (some "nan") "ar" (some "hunger")).2.1
     (by decide) (Or.inl rfl),
   ((to_query_cases (some "Lebanon") "en"
       (some "poverty OR inequality")).2.2.1 (by decide) (by decide))⟩

/-- C7: in every scrape invocation the counts fetch happens,
unconditionally; and when the records fetch returns zero rows, the event
trace is exactly the records fetch, then the counts fetch, then possibly
the TweetCount write: the RawTweets write is skipped and nothing else is
skipped. -/
theorem scrape_always_fetches_counts (ds cs : List ApiResponse) :
    ScrapeEvent.fetchCounts ∈ scrape ds cs ∧
    ((queryData ds).data = [] →
      scrape ds cs =
        [ScrapeEvent.fetchData, ScrapeEvent.fetchCounts] ++
          (if (queryCounts cs).length > 0 then
            [ScrapeEvent.writeTweetCount (queryCounts cs).length]
           else [])) := by
  constructor
  · rw [scrape]
    split <;> split <;> simp
  · intro h
    rw [scrape]
    simp [h]

/-- C7 witness: a records script returning zero rows, with the hypothesis
of the conditional conjunct discharged by computation. -/
theorem scrape_always_fetches_counts_witness :
    (queryData [okPage ([] : List Nat) none]).data = [] ∧
    ScrapeEvent.fetchCounts ∈
      scrape [okPage [] none] [okPage [1, 2] none] ∧
    scrape [okPage [] none] [okPage [1, 2] none] =
      [ScrapeEvent.fetchData, ScrapeEvent.fetchCounts] ++
        (if (queryCounts [okPage [1, 2] none]).length > 0 then
          [ScrapeEvent.writeTweetCount
            (queryCounts [okPage [1, 2] none]).length]
         else []) :=
  ⟨rfl,
   (scrape_always_fetches_counts [okPage [] none] [okPage [1, 2] none]).1,
   (scrape_always_fetches_counts [okPage [] none]
     [okPage [1, 2] none]).2 rfl⟩

/-- C8: a page whose payload carries a continuation token but an empty or
absent data batch still causes the next page to be requested, whether it is
the first page (both the empty batch and the missing data key variants) or
a later page; and a terminal page with zero records and no token ends the
invocation cleanly with whatever was accumulated, including an empty
accumulator. -/
theorem empty_page_with_token_continues
    (t t2 : String) (p p2 p3 : List Nat) (rest : List ApiResponse) :
    queryData (okPage [] (some t) :: okPage p2 none :: rest) =
      ⟨p2, 0, 2⟩ ∧
    queryData ((⟨none, some t, none⟩ : ApiResponse) ::
        okPage p2 none :: rest) = ⟨p2, 0, 2⟩ ∧
    queryData [okPage p (some t), okPage [] (some t2), okPage p3 none] =
      ⟨p ++ p3, 0, 3⟩ ∧
    queryData [okPage [] none] = ⟨[], 0, 1⟩ ∧
    queryData [okPage p none] = ⟨p, 0, 1⟩ := by
  refine ⟨?_, ?_, ?_, rfl, ?_⟩
  · simp only [okPage]
    rw [queryData_cons_some, pageLoop_token_cons _ _ _ t _ _ rfl,
      pageLoop_no_token _ _ _ _ rfl]
    simp
  · simp only [okPage]
    rw [queryData_cons_no_data, pageLoop_token_cons _ _ _ t _ _ rfl,
      pageLoop_no_token _ _ _ _ rfl]
    simp
  · simp only [okPage]
    rw [queryData_cons_some, pageLoop_token_cons _ _ _ t _ _ rfl,
      pageLoop_token_cons _ _ _ t2 _ _ rfl,
      pageLoop_no_token _ _ _ _ rfl]
    simp
  · simp only [okPage]
    rw [queryData_cons_some, pageLoop_no_token _ _ _ _ rfl]

/-- C9: for every tokenizer and every input frame, get_wordcloud returns at
most top_n rows (at most 30 under the default argument), the words of the
rows are pairwise distinct tokens of the cleaned text and each row carries
the exact multiplicity of its word, the rows are ordered by non-increasing
count, and an empty input frame yields the empty frame with columns word
and count. -/
theorem get_wordcloud_shape (cleanup : String → String → String → List String)
    (texts : List (Option String)) (country lang : String) (top_n : Nat) :
    (get_wordcloud cleanup texts country lang top_n).rows.length ≤ top_n ∧
    ((get_wordcloud cleanup texts country lang top_n).rows.map
      Prod.fst).Nodup ∧
    (get_wordcloud cleanup texts country lang top_n).rows.Pairwise
      (fun a b => b.2 ≤ a.2) ∧
    (∀ pr ∈ (get_wordcloud cleanup texts country lang top_n).rows,
      pr.1 ∈ tokensOf cleanup texts country lang ∧
      pr.2 = (tokensOf cleanup texts country lang).count pr.1) ∧
    (get_wordcloud cleanup texts country lang).rows.length ≤ 30 ∧
    (texts = [] →
      get_wordcloud cleanup texts country lang top_n =
        ⟨["word", "count"], []⟩) := by
  have hrows : ∀ m : Nat,
      (get_wordcloud cleanup texts country lang m).rows = [] ∨
      (get_wordcloud cleanup texts country lang m).rows =
        mostCommon m (tokensOf cleanup texts country lang) := by
    intro m
    rw [get_wordcloud]
    split
    · exact Or.inl rfl
    · exact Or.inr rfl
  refine ⟨?_, ?_, ?_, ?_, ?_, fun h => ?_⟩
  · rcases hrows top_n with h | h <;> rw [h]
    · simp
    · exact mostCommon_length _ _
  · rcases hrows top_n with h | h <;> rw [h]
    · simp
    · exact mostCommon_nodup_words _ _
  · rcases hrows top_n with h | h <;> rw [h]
    · simp
    · exact mostCommon_sorted _ _
  · rcases hrows top_n with h | h <;> rw [h]
    · simp
    · exact fun pr hpr => mostCommon_mem hpr
  · rcases hrows 30 with h | h <;> rw [get_wordcloud] at h ⊢ <;> rw [h]
    · simp
    · exact mostCommon_length _ _
  · rw [get_wordcloud, if_pos (by rw [h]; rfl)]

/-- C9 witness: the shape facts of get_wordcloud evaluated on a concrete
tokenizer and frame, with the membership and emptiness hypotheses
discharged on concrete values. -/
theorem get_wordcloud_shape_witness :
    (get_wordcloud (fun t _ _ => pySplitSpace t) [some "a b a"]
      "LB" "en" 2).rows.length ≤ 2 ∧
    get_wordcloud (fun t _ _ => pySplitSpace t) ([] : List (Option String))
      "LB" "en" 5 = ⟨["word", "count"], []⟩ ∧
    (("a", 2).1 ∈ tokensOf (fun t _ _ => pySplitSpace t) [some "a b a"]
        "LB" "en" ∧
      ("a", 2).2 = (tokensOf (fun t _ _ => pySplitSpace t) [some "a b a"]
        "LB" "en").count ("a", 2).1) :=
  ⟨(get_wordcloud_shape (fun t _ _ => pySplitSpace t) [some "a b a"]
      "LB" "en" 2).1,
   (get_wordcloud_shape (fun t _ _ => pySplitSpace t) [] "LB" "en"
      5).2.2.2.2.2 rfl,
   (get_wordcloud_shape (fun t _ _ => pySplitSpace t) [some "a b a"]
      "LB" "en" 2).2.2.2.1 ("a", 2) (by decide)⟩

/-- C10: get_stats matches a keyword by literal, case-insensitive substring
search for the space-separated keyword parts joined by the ampersand
character. Consequently a multi-word keyword such as climate change is
compiled to the pattern climate ampersand change, a tweet containing both
words separately (here one containing climate and change) is counted zero
times, and only a tweet literally containing the joined string is
counted. -/
theorem keyword_match_is_literal_joined (tweets : List ProcessedTweet)
    (kw : String) :
    matchedTweets tweets kw = tweets.filter
      (fun t => containsL (lowerChars (joinAmp (pySplitSpace kw)).toList)
        (lowerChars t.text.toList)) ∧
    keywordPattern "climate change" = "climate&change" ∧
    containsLiteral "Climate change is real" "climate" = true ∧
    containsLiteral "Climate change is real" "change" = true ∧
    keywordCount [⟨"Climate change is real", "positive", "SDG13"⟩]
      "climate change" = 0 ∧
    keywordCount [⟨"say no to climate&change now", "negative", "SDG13"⟩]
      "climate change" = 1 :=
  ⟨rfl, by decide, by decide, by decide, by decide, by decide⟩

end ArabSdg
